import Mathlib

/-!
Verification of `modules/modelSetup/StableDiffusionLoRASetup.py`: a shallow
embedding of the LoRA training-phase controller (adapter installation,
parameter-group assembly, phase gating, device placement and learning-rate
reporting), together with theorems about its behaviour.

Python `None`-able attributes are modelled as `Option`; an attribute access
on a `None` value (which would raise in Python) is modelled by a function
returning `none`. Training progress is modelled by its global step counter,
a natural number. Devices and weight dtypes are opaque natural numbers.
-/

namespace SDLoRA

/-- Kinds of submodules of a network, as tested by the target-module scan in
the adapter installation (`torch.nn.Linear`, `torch.nn.Conv2d`, anything else). -/
inductive ModuleKind where
  | linear
  | conv2d
  | other
deriving DecidableEq, Repr

/-- A base sub-network: its named submodules, the requires_grad flag of its
own (base) parameters, the device it resides on, its train/eval mode flag
and its weight dtype. -/
structure Network where
  modules : List (String × ModuleKind)
  requires_grad : Bool
  device : Nat
  training : Bool
  dtype : Nat
deriving DecidableEq, Repr

/-- peft.LoraConfig: the hyperparameters handed to the adapter construction
call (rank, alpha, dropout, and the list of target module names). -/
structure LoraConfig where
  r : Nat
  lora_alpha : Nat
  lora_dropout : ℚ
  target_modules : List String
deriving DecidableEq, Repr

/-- Modelled from the spec (the peft adapter library is not part of the
repository): an adapter view wraps a base network in place, sharing its
weights, and owns its own small set of trainable low-rank parameters, one
bundle per target module; it carries a unique adapter name, a requires_grad
flag governing its low-rank parameters, and a weight dtype. -/
structure LoraAdapter where
  rank : Nat
  alpha : Nat
  dropout : ℚ
  target_modules : List String
  adapter_name : String
  params : List String
  requires_grad : Bool
  dtype : Nat
deriving DecidableEq, Repr

/-- The trainable parameters owned by an adapter view. -/
def LoraAdapter.parameters (a : LoraAdapter) : List String := a.params

/-- Modelled from the spec: a ParameterGroup is a bundle of trainable
parameters together with an associated learning rate, as built by the base
class helper `create_param_groups` (not part of the repository). -/
structure ParameterGroup where
  params : List String
  learning_rate : ℚ
deriving DecidableEq, Repr

/-- Per-sub-network slice of the train config: the train toggle, the
learning rate, and the optional stop-training step threshold. -/
structure TrainModelPartConfig where
  train : Bool
  learning_rate : ℚ
  stop_training_after : Option Nat
deriving DecidableEq, Repr

/-- The fields of TrainConfig read by StableDiffusionLoRASetup. -/
structure TrainConfig where
  text_encoder : TrainModelPartConfig
  unet : TrainModelPartConfig
  lora_rank : Nat
  lora_alpha : Nat
  dropout_probability : ℚ
  lora_weight_dtype : Nat
  rescale_noise_scheduler_to_zero_terminal_snr : Bool
  align_prop : Bool
  latent_caching : Bool
deriving DecidableEq, Repr

/-- The mutable model aggregate: base networks, optional adapter views,
training progress (global step), optimizer/EMA and their restore state,
and the noise-scheduler flags touched by setup_model. -/
structure StableDiffusionModel where
  text_encoder : Network
  unet : Network
  vae : Network
  depth_estimator : Network
  text_encoder_lora : Option LoraAdapter
  unet_lora : Option LoraAdapter
  train_progress : Nat
  optimizer : Option (List ParameterGroup)
  optimizer_state_dict : Option Nat
  ema : Option (List String)
  ema_state_dict : Option Nat
  noise_scheduler_rescaled : Bool
  v_prediction : Bool
deriving DecidableEq, Repr

/-- The state held by the setup object itself: the primary training device,
the secondary (offload) device, and the debug flag. -/
structure StableDiffusionLoRASetup where
  train_device : Nat
  temp_device : Nat
  debug_mode : Bool
deriving DecidableEq, Repr

/-- Modelled from the spec: `stop_training_elapsed` is an external
collaborator predicate provided by the base setup (not part of the
repository), checking whether the configured stop-training step threshold
for a sub-network has passed at the given train progress; an unset
threshold never elapses. -/
def stop_training_elapsed (stop_after : Option Nat) (progress : Nat) : Bool :=
  match stop_after with
  | none => false
  | some s => decide (s ≤ progress)

/-- The text-encoder instance of the stop predicate. -/
def stop_text_encoder_training_elapsed (config : TrainConfig) (progress : Nat) : Bool :=
  stop_training_elapsed config.text_encoder.stop_training_after progress

/-- The unet instance of the stop predicate. -/
def stop_unet_training_elapsed (config : TrainConfig) (progress : Nat) : Bool :=
  stop_training_elapsed config.unet.stop_training_after progress

/-- The phase gate for the text encoder, as computed at lines 91-92 and
151-152 of the source: `config.text_encoder.train and not
stop_text_encoder_training_elapsed(config, progress)`. -/
def should_train_text_encoder (config : TrainConfig) (progress : Nat) : Bool :=
  config.text_encoder.train && !(stop_text_encoder_training_elapsed config progress)

/-- The phase gate for the denoising network, as computed at lines 96-97 and
156-157 of the source. -/
def should_train_unet (config : TrainConfig) (progress : Nat) : Bool :=
  config.unet.train && !(stop_unet_training_elapsed config progress)

/-- Modelled from the spec: `BaseStableDiffusionSetup.create_param_groups`
(not part of the repository) bundles the given parameters with the given
learning rate into one parameter group. -/
def create_param_groups (config : TrainConfig) (params : List String) (lr : ℚ) :
    ParameterGroup :=
  { params := params, learning_rate := lr }

/-- `create_parameters`: collects the adapter parameters of each sub-network
whose train flag is set (text encoder first, then unet); reading the
parameters of a missing adapter view is modelled as `none`. -/
def create_parameters (model : StableDiffusionModel) (config : TrainConfig) :
    Option (List String) := do
  let params : List String := []
  let params ←
    if config.text_encoder.train then
      match model.text_encoder_lora with
      | some l => some (params ++ l.parameters)
      | none => none
    else some params
  let params ←
    if config.unet.train then
      match model.unet_lora with
      | some l => some (params ++ l.parameters)
      | none => none
    else some params
  some params

/-- `create_parameters_for_optimizer`: appends one parameter group per
enabled sub-network, text encoder first and then unet, each tagged with its
configured learning rate; reading a missing adapter view is modelled as
`none`. -/
def create_parameters_for_optimizer (model : StableDiffusionModel)
    (config : TrainConfig) : Option (List ParameterGroup) := do
  let param_groups : List ParameterGroup := []
  let param_groups ←
    if config.text_encoder.train then
      match model.text_encoder_lora with
      | some l => some (param_groups ++
          [create_param_groups config l.parameters config.text_encoder.learning_rate])
      | none => none
    else some param_groups
  let param_groups ←
    if config.unet.train then
      match model.unet_lora with
      | some l => some (param_groups ++
          [create_param_groups config l.parameters config.unet.learning_rate])
      | none => none
    else some param_groups
  some param_groups

/-- Scan of the base network's named modules selecting the linear and 2D
convolutional layers, as done for target_modules at lines 73 and 82. -/
def lora_target_modules (net : Network) : List String :=
  (net.modules.filter
    (fun nm => nm.2 == ModuleKind.linear || nm.2 == ModuleKind.conv2d)).map Prod.fst

/-- The LoraConfig built for the text encoder at lines 69-74. -/
def te_lora_config (model : StableDiffusionModel) (config : TrainConfig) : LoraConfig :=
  { r := config.lora_rank,
    lora_alpha := config.lora_alpha,
    lora_dropout := config.dropout_probability,
    target_modules := lora_target_modules model.text_encoder }

/-- The LoraConfig built for the unet at lines 78-83. -/
def unet_lora_config (model : StableDiffusionModel) (config : TrainConfig) : LoraConfig :=
  { r := config.lora_rank,
    lora_alpha := config.lora_alpha,
    lora_dropout := config.dropout_probability,
    target_modules := lora_target_modules model.unet }

/-- Modelled from the spec: `peft.get_peft_model` (external
adapter-construction library call, not part of the repository) wraps the
base network in place, producing an adapter view that shares the base
weights and owns one new trainable low-rank parameter bundle per target
module, named uniquely per sub-network. -/
def get_peft_model (base : Network) (cfg : LoraConfig) (adapter_name : String) :
    LoraAdapter :=
  { rank := cfg.r,
    alpha := cfg.lora_alpha,
    dropout := cfg.lora_dropout,
    target_modules := cfg.target_modules,
    adapter_name := adapter_name,
    params := cfg.target_modules.map (fun n => adapter_name ++ "." ++ n),
    requires_grad := true,
    dtype := base.dtype }

/-- The adapter installation block at the start of setup_model (lines
68-84): each sub-network gets a newly constructed adapter only when its
adapter view is still None. -/
def install_lora_adapters (model : StableDiffusionModel) (config : TrainConfig) :
    StableDiffusionModel :=
  let model :=
    match model.text_encoder_lora with
    | none =>
        let te_lora := get_peft_model model.text_encoder (te_lora_config model config) "lora_te"
        { model with text_encoder_lora := some te_lora }
    | some _ => model
  match model.unet_lora with
  | none =>
      let unet_lora := get_peft_model model.unet (unet_lora_config model config) "lora_unet"
      { model with unet_lora := some unet_lora }
  | some _ => model

/-- Lines 86-88: freeze the base text encoder, unet and VAE parameters. -/
def freeze_base_networks (model : StableDiffusionModel) : StableDiffusionModel :=
  { model with
    text_encoder := { model.text_encoder with requires_grad := false },
    unet := { model.unet with requires_grad := false },
    vae := { model.vae with requires_grad := false } }

/-- The None-guarded gradient-flag blocks, lines 90-98 of setup_model; the
body of after_optimizer_step (lines 150-158) is textually identical, so both
call this one definition. The gate is evaluated on `model.train_progress`. -/
def apply_lora_gates (model : StableDiffusionModel) (config : TrainConfig) :
    StableDiffusionModel :=
  let model :=
    match model.text_encoder_lora with
    | some te =>
        let train_text_encoder := should_train_text_encoder config model.train_progress
        { model with text_encoder_lora := some { te with requires_grad := train_text_encoder } }
    | none => model
  match model.unet_lora with
  | some un =>
      let train_unet := should_train_unet config model.train_progress
      { model with unet_lora := some { un with requires_grad := train_unet } }
  | none => model

/-- Modelled from the spec: DataType.torch_dtype converts the configured
weight precision identifier to the framework dtype; precision identifiers
are opaque here. -/
def torch_dtype (d : Nat) : Nat := d

/-- The unguarded dtype casts at lines 100-101: dereferencing a missing
adapter view there is modelled as `none`. -/
def cast_lora_weight_dtype (model : StableDiffusionModel) (config : TrainConfig) :
    Option StableDiffusionModel :=
  match model.text_encoder_lora, model.unet_lora with
  | some te, some un =>
      some { model with
        text_encoder_lora := some { te with dtype := torch_dtype config.lora_weight_dtype },
        unet_lora := some { un with dtype := torch_dtype config.lora_weight_dtype } }
  | _, _ => none

/-- Modelled from the spec: `create.create_optimizer` is an external
collaborator; the optimizer is represented by the parameter groups it is
constructed over. -/
def create_optimizer (param_groups : List ParameterGroup) (state : Option Nat)
    (config : TrainConfig) : List ParameterGroup :=
  param_groups

/-- Modelled from the spec: `create.create_ema` is an external collaborator;
the EMA tracker is represented by the parameters it is constructed over. -/
def create_ema (params : List String) (state : Option Nat) (config : TrainConfig) :
    List String :=
  params

/-- Modelled from the spec: `setup_optimizations` is inherited external
behaviour (attention/precision optimisations) that leaves the modelled
state unchanged. -/
def setup_optimizations (model : StableDiffusionModel) (config : TrainConfig) :
    StableDiffusionModel :=
  model

/-- `setup_model`, lines 61-117: install adapters if absent, freeze base
networks, apply the phase gates, cast adapter weights, optionally rescale
the noise schedule, then build the optimizer and EMA and drop their restore
state. -/
def setup_model (model : StableDiffusionModel) (config : TrainConfig) :
    Option StableDiffusionModel :=
  let model := install_lora_adapters model config
  let model := freeze_base_networks model
  let model := apply_lora_gates model config
  match cast_lora_weight_dtype model config with
  | none => none
  | some model =>
    let model :=
      if config.rescale_noise_scheduler_to_zero_terminal_snr then
        { model with noise_scheduler_rescaled := true, v_prediction := true }
      else model
    match create_parameters_for_optimizer model config with
    | none => none
    | some groups =>
      let model := { model with
        optimizer := some (create_optimizer groups model.optimizer_state_dict config),
        optimizer_state_dict := none }
      match create_parameters model config with
      | none => none
      | some params =>
        let model := { model with
          ema := some (create_ema params model.ema_state_dict config),
          ema_state_dict := none }
        some (setup_optimizations model config)

/-- `after_optimizer_step`, lines 144-158: its body is textually identical
to the gate blocks of setup_model (lines 90-98); the `train_progress`
argument is never read, the gates use `model.train_progress`. -/
def after_optimizer_step (model : StableDiffusionModel) (config : TrainConfig)
    (train_progress : Nat) : StableDiffusionModel :=
  apply_lora_gates model config

/-- `setup_train_device`, lines 119-142: device placement and train/eval
mode for every sub-network. -/
def setup_train_device (setup : StableDiffusionLoRASetup)
    (model : StableDiffusionModel) (config : TrainConfig) : StableDiffusionModel :=
  let vae_on_train_device := setup.debug_mode || config.align_prop
  let text_encoder_on_train_device :=
    config.text_encoder.train || config.align_prop || !config.latent_caching
  let model := { model with
    text_encoder := { model.text_encoder with
      device := if text_encoder_on_train_device then setup.train_device else setup.temp_device },
    vae := { model.vae with
      device := if vae_on_train_device then setup.train_device else setup.temp_device },
    unet := { model.unet with device := setup.train_device },
    depth_estimator := { model.depth_estimator with device := setup.temp_device } }
  let model := { model with
    text_encoder := { model.text_encoder with training := config.text_encoder.train } }
  let model := { model with vae := { model.vae with training := false } }
  { model with unet := { model.unet with training := config.unet.train } }

/-- The names list built at lines 168-172 of report_learning_rates: "te"
when the text encoder trains, then "unet" when the unet trains. -/
def lr_group_names (config : TrainConfig) : List String :=
  let names : List String := []
  let names := if config.text_encoder.train then names ++ ["te"] else names
  let names := if config.unet.train then names ++ ["unet"] else names
  names

/-- `report_learning_rates`, lines 160-180: the scheduler's last learning
rates are the `lrs` argument; the external per-rate adjustment
`maybe_adjust_lrs` is modelled from the spec as an element-wise map
`adjust`; the metrics sink receives one (tag, value, step) scalar per zipped
pair. The assertion `len(lrs) == len(names)` failing is modelled as `none`. -/
def report_learning_rates (config : TrainConfig) (adjust : ℚ → ℚ)
    (lrs : List ℚ) (global_step : Nat) : Option (List (String × ℚ × Nat)) :=
  if lrs.length = (lr_group_names config).length then
    some (((lr_group_names config).zip (lrs.map adjust)).map
      (fun p => ("lr/" ++ p.1, p.2, global_step)))
  else
    none

/-! Concrete sample inputs used by the witness theorems. -/

/-- A small base network with one linear, one conv and one other module. -/
def sampleNet : Network :=
  { modules := [("q", ModuleKind.linear), ("conv_in", ModuleKind.conv2d), ("norm", ModuleKind.other)],
    requires_grad := true,
    device := 0,
    training := false,
    dtype := 0 }

/-- A config with both sub-networks training and no stop thresholds. -/
def sampleConfig : TrainConfig :=
  { text_encoder := { train := true, learning_rate := 1, stop_training_after := none },
    unet := { train := true, learning_rate := 2, stop_training_after := none },
    lora_rank := 4,
    lora_alpha := 1,
    dropout_probability := 0,
    lora_weight_dtype := 16,
    rescale_noise_scheduler_to_zero_terminal_snr := false,
    align_prop := false,
    latent_caching := true }

/-- The sample config with both train flags off. -/
def sampleConfigOff : TrainConfig :=
  { sampleConfig with
    text_encoder := { sampleConfig.text_encoder with train := false },
    unet := { sampleConfig.unet with train := false } }

/-- The sample config with stop thresholds set to step 5 for both
sub-networks. -/
def sampleConfigStop : TrainConfig :=
  { sampleConfig with
    text_encoder := { sampleConfig.text_encoder with stop_training_after := some 5 },
    unet := { sampleConfig.unet with stop_training_after := some 5 } }

/-- A fresh model with no adapter views installed yet. -/
def sampleModel : StableDiffusionModel :=
  { text_encoder := sampleNet,
    unet := sampleNet,
    vae := sampleNet,
    depth_estimator := sampleNet,
    text_encoder_lora := none,
    unet_lora := none,
    train_progress := 0,
    optimizer := none,
    optimizer_state_dict := some 7,
    ema := none,
    ema_state_dict := some 9,
    noise_scheduler_rescaled := false,
    v_prediction := false }

/-- The text-encoder adapter the installation block builds on sampleModel. -/
def sampleAdapterTE : LoraAdapter :=
  get_peft_model sampleNet (te_lora_config sampleModel sampleConfig) "lora_te"

/-- The unet adapter the installation block builds on sampleModel. -/
def sampleAdapterUN : LoraAdapter :=
  get_peft_model sampleNet (unet_lora_config sampleModel sampleConfig) "lora_unet"

/-- The sample model with both adapter views already installed. -/
def sampleModelWithLora : StableDiffusionModel :=
  { sampleModel with
    text_encoder_lora := some sampleAdapterTE,
    unet_lora := some sampleAdapterUN }

/-- The model state setup_model produces from the fresh sample model. -/
def sampleResult : StableDiffusionModel :=
  (setup_model sampleModel sampleConfig).getD sampleModel

/-! The claims. -/

/-- C2: for every config in which both train flags are off,
create_parameters_for_optimizer and create_parameters both return an empty
sequence. -/
theorem create_parameters_empty_when_untrained (model : StableDiffusionModel)
    (config : TrainConfig) (hte : config.text_encoder.train = false)
    (hun : config.unet.train = false) :
    create_parameters_for_optimizer model config = some [] ∧
    create_parameters model config = some [] := by
  constructor <;>
    simp [create_parameters_for_optimizer, create_parameters, hte, hun, Option.bind]

/-- Witness for C2 at the concrete sample model and all-off config. -/
theorem create_parameters_empty_when_untrained_witness :
    create_parameters_for_optimizer sampleModel sampleConfigOff = some [] ∧
    create_parameters sampleModel sampleConfigOff = some [] :=
  create_parameters_empty_when_untrained sampleModel sampleConfigOff
    (by decide) (by decide)

/-- C10: after_optimizer_step ignores its train_progress argument: any two
calls on the same model and config that differ only in that argument
produce identical model states, because the gate reads model.train_progress. -/
theorem after_optimizer_step_ignores_argument (model : StableDiffusionModel)
    (config : TrainConfig) (p q : Nat) :
    after_optimizer_step model config p = after_optimizer_step model config q := rfl

/-- C6: setup_train_device places the VAE on the primary device iff
debug_mode or align_prop, the text encoder on the primary device iff it
trains or align_prop or latent caching is off, the unet always on the
primary device, the depth estimator always on the offload device, and
always puts the VAE in evaluation mode. -/
theorem setup_train_device_placement (setup : StableDiffusionLoRASetup)
    (model : StableDiffusionModel) (config : TrainConfig) :
    ((setup_train_device setup model config).vae.device =
      if setup.debug_mode || config.align_prop then setup.train_device else setup.temp_device) ∧
    ((setup_train_device setup model config).text_encoder.device =
      if config.text_encoder.train || config.align_prop || !config.latent_caching
        then setup.train_device else setup.temp_device) ∧
    (setup_train_device setup model config).unet.device = setup.train_device ∧
    (setup_train_device setup model config).depth_estimator.device = setup.temp_device ∧
    (setup_train_device setup model config).vae.training = false := by
  refine ⟨?_, ?_, ?_, ?_, ?_⟩ <;> simp [setup_train_device]

/-- C8: past a sub-network's configured stop step the phase gate returns
false, and the gate is one-way: for progress values p ≤ q, once it is false
at p it is still false at q (it can only ever flip true to false). -/
theorem should_train_one_way_gate (config : TrainConfig) (p q : Nat) :
    (∀ s, config.text_encoder.stop_training_after = some s → s ≤ p →
      should_train_text_encoder config p = false) ∧
    (p ≤ q → should_train_text_encoder config p = false →
      should_train_text_encoder config q = false) ∧
    (∀ s, config.unet.stop_training_after = some s → s ≤ p →
      should_train_unet config p = false) ∧
    (p ≤ q → should_train_unet config p = false →
      should_train_unet config q = false) := by
  refine ⟨?_, ?_, ?_, ?_⟩
  · intro s hs hsp
    simp [should_train_text_encoder, stop_text_encoder_training_elapsed,
      stop_training_elapsed, hs, hsp]
  · intro hpq h
    cases htr : config.text_encoder.train with
    | false => simp [should_train_text_encoder, htr]
    | true =>
      simp only [should_train_text_encoder, htr, Bool.true_and, Bool.not_eq_false'] at h ⊢
      cases hs : config.text_encoder.stop_training_after with
      | none => simp [stop_text_encoder_training_elapsed, stop_training_elapsed, hs] at h
      | some s =>
        simp only [stop_text_encoder_training_elapsed, stop_training_elapsed, hs,
          decide_eq_true_eq] at h ⊢
        omega
  · intro s hs hsp
    simp [should_train_unet, stop_unet_training_elapsed, stop_training_elapsed, hs, hsp]
  · intro hpq h
    cases htr : config.unet.train with
    | false => simp [should_train_unet, htr]
    | true =>
      simp only [should_train_unet, htr, Bool.true_and, Bool.not_eq_false'] at h ⊢
      cases hs : config.unet.stop_training_after with
      | none => simp [stop_unet_training_elapsed, stop_training_elapsed, hs] at h
      | some s =>
        simp only [stop_unet_training_elapsed, stop_training_elapsed, hs,
          decide_eq_true_eq] at h ⊢
        omega

/-- Witness for C8 at stop step 5 and progress values 7 ≤ 9, exercising the
past-the-stop-step part and the one-way part for both sub-networks. -/
theorem should_train_one_way_gate_witness :
    should_train_text_encoder sampleConfigStop 7 = false ∧
    should_train_text_encoder sampleConfigStop 9 = false ∧
    should_train_unet sampleConfigStop 7 = false ∧
    should_train_unet sampleConfigStop 9 = false := by
  have h := should_train_one_way_gate sampleConfigStop 7 9
  have hte := h.1 5 (by decide) (by decide)
  have hun := h.2.2.1 5 (by decide) (by decide)
  exact ⟨hte, h.2.1 (by decide) hte, hun, h.2.2.2 (by decide) hun⟩

/-- C3: report_learning_rates fails (assertion) exactly when the number of
scheduler learning rates differs from the number of named enabled groups;
on success it emits exactly one scalar metric per name, never truncating. -/
theorem report_learning_rates_assert (config : TrainConfig) (adjust : ℚ → ℚ)
    (lrs : List ℚ) (global_step : Nat) :
    (report_learning_rates config adjust lrs global_step = none ↔
      lrs.length ≠ (lr_group_names config).length) ∧
    (∀ out, report_learning_rates config adjust lrs global_step = some out →
      out.length = (lr_group_names config).length) := by
  unfold report_learning_rates
  by_cases h : lrs.length = (lr_group_names config).length <;>
    simp [h, List.length_zip, min_self]

/-- Witness for C3: with both groups enabled, two learning rates succeed
with two metrics emitted, and one learning rate trips the assertion. -/
theorem report_learning_rates_assert_witness :
    ([("lr/te", (1 : ℚ), 5), ("lr/unet", (2 : ℚ), 5)].length
        = (lr_group_names sampleConfig).length) ∧
    report_learning_rates sampleConfig (fun x => x) [1] 5 = none := by
  constructor
  · exact (report_learning_rates_assert sampleConfig (fun x => x) [1, 2] 5).2
      [("lr/te", (1 : ℚ), 5), ("lr/unet", (2 : ℚ), 5)] (by decide)
  · exact (report_learning_rates_assert sampleConfig (fun x => x) [1] 5).1.mpr (by decide)

/-- C4: adapter installation is idempotent per sub-network: an already
present adapter view is kept as is (no new adapter is constructed for that
sub-network), and running the installation block twice equals running it
once, so there is never a double wrap. -/
theorem adapter_install_idempotent (model : StableDiffusionModel) (config : TrainConfig) :
    (∀ a, model.text_encoder_lora = some a →
      (install_lora_adapters model config).text_encoder_lora = some a) ∧
    (∀ a, model.unet_lora = some a →
      (install_lora_adapters model config).unet_lora = some a) ∧
    install_lora_adapters (install_lora_adapters model config) config
      = install_lora_adapters model config := by
  cases hte : model.text_encoder_lora <;> cases hun : model.unet_lora <;>
    simp [install_lora_adapters, hte, hun]

/-- Witness for C4: on a model with both adapter views already present, the
installation block keeps them unchanged. -/
theorem adapter_install_idempotent_witness :
    (install_lora_adapters sampleModelWithLora sampleConfig).text_encoder_lora
      = some sampleAdapterTE ∧
    (install_lora_adapters sampleModelWithLora sampleConfig).unet_lora
      = some sampleAdapterUN := by
  have h := adapter_install_idempotent sampleModelWithLora sampleConfig
  exact ⟨h.1 sampleAdapterTE (by decide), h.2.1 sampleAdapterUN (by decide)⟩

/-- C9: after the installation block both adapter views are present for
every input model, so the None-guarded gate branches are always taken and
setup_model (whose unguarded dtype casts are modelled as none on a missing
view) never dereferences None: it returns some state on every input. -/
theorem setup_model_never_dereferences_none (model : StableDiffusionModel)
    (config : TrainConfig) :
    (install_lora_adapters model config).text_encoder_lora.isSome = true ∧
    (install_lora_adapters model config).unet_lora.isSome = true ∧
    (setup_model model config).isSome = true := by
  cases hte : model.text_encoder_lora <;> cases hun : model.unet_lora <;>
    cases h1 : config.text_encoder.train <;> cases h2 : config.unet.train <;>
    cases h3 : config.rescale_noise_scheduler_to_zero_terminal_snr <;>
    simp [setup_model, install_lora_adapters, freeze_base_networks, apply_lora_gates,
      cast_lora_weight_dtype, create_parameters_for_optimizer, create_parameters,
      create_optimizer, create_ema, setup_optimizations, hte, hun, h1, h2, h3,
      Option.bind]

/-- C1: the gradient-enable flag each adapter view carries after
setup_model equals the sub-network's train flag AND NOT its
stop-training-elapsed predicate at the model's train progress, and
after_optimizer_step applies the same value to each adapter view whenever
that view is present. -/
theorem lora_gate_formula (model : StableDiffusionModel) (config : TrainConfig) :
    ((setup_model model config).map
        (fun m => m.text_encoder_lora.map (fun a => a.requires_grad))
      = some (some (should_train_text_encoder config model.train_progress))) ∧
    ((setup_model model config).map
        (fun m => m.unet_lora.map (fun a => a.requires_grad))
      = some (some (should_train_unet config model.train_progress))) ∧
    (∀ p, ((after_optimizer_step model config p).text_encoder_lora.map
          (fun a => a.requires_grad)
        = model.text_encoder_lora.map
          (fun _ => should_train_text_encoder config model.train_progress)) ∧
      ((after_optimizer_step model config p).unet_lora.map (fun a => a.requires_grad)
        = model.unet_lora.map
          (fun _ => should_train_unet config model.train_progress))) := by
  cases hte : model.text_encoder_lora <;> cases hun : model.unet_lora <;>
    cases h1 : config.text_encoder.train <;> cases h2 : config.unet.train <;>
    cases h3 : config.rescale_noise_scheduler_to_zero_terminal_snr <;>
    simp [setup_model, after_optimizer_step, install_lora_adapters,
      freeze_base_networks, apply_lora_gates, cast_lora_weight_dtype,
      create_parameters_for_optimizer, create_parameters, create_optimizer,
      create_ema, setup_optimizations, should_train_text_encoder, should_train_unet,
      hte, hun, h1, h2, h3, Option.bind]

/-- C5: once setup_model has run, the base text encoder, base unet and VAE
parameters all have requires_grad false (only the adapter views' low-rank
parameters can remain trainable), and after_optimizer_step never touches
the base networks' requires_grad flags. -/
theorem base_networks_frozen (model : StableDiffusionModel) (config : TrainConfig) :
    ((setup_model model config).map
        (fun m => (m.text_encoder.requires_grad, m.unet.requires_grad, m.vae.requires_grad))
      = some (false, false, false)) ∧
    (∀ p, ((after_optimizer_step model config p).text_encoder.requires_grad
          = model.text_encoder.requires_grad) ∧
      ((after_optimizer_step model config p).unet.requires_grad
          = model.unet.requires_grad) ∧
      ((after_optimizer_step model config p).vae.requires_grad
          = model.vae.requires_grad)) := by
  cases hte : model.text_encoder_lora <;> cases hun : model.unet_lora <;>
    cases h1 : config.text_encoder.train <;> cases h2 : config.unet.train <;>
    cases h3 : config.rescale_noise_scheduler_to_zero_terminal_snr <;>
    simp [setup_model, after_optimizer_step, install_lora_adapters,
      freeze_base_networks, apply_lora_gates, cast_lora_weight_dtype,
      create_parameters_for_optimizer, create_parameters, create_optimizer,
      create_ema, setup_optimizations, hte, hun, h1, h2, h3, Option.bind]

/-- C7: parameter groups are built in the fixed order text encoder first,
then unet, each tagged with its sub-network's configured learning rate, and
the group order matches the name order built by report_learning_rates; for
a config with both train flags set and both stop thresholds unset,
setup_model leaves both adapter views present and gradient-enabled and
stores an optimizer over exactly two groups. -/
theorem param_group_order (model : StableDiffusionModel) (config : TrainConfig)
    (te un : LoraAdapter) (hte : model.text_encoder_lora = some te)
    (hun : model.unet_lora = some un) :
    (create_parameters_for_optimizer model config = some
      ((if config.text_encoder.train
          then [create_param_groups config te.parameters config.text_encoder.learning_rate]
          else []) ++
        (if config.unet.train
          then [create_param_groups config un.parameters config.unet.learning_rate]
          else []))) ∧
    (lr_group_names config =
      (if config.text_encoder.train then ["te"] else []) ++
        (if config.unet.train then ["unet"] else [])) ∧
    (∀ m0 m', config.text_encoder.train = true → config.unet.train = true →
      config.text_encoder.stop_training_after = none →
      config.unet.stop_training_after = none →
      setup_model m0 config = some m' →
      m'.text_encoder_lora.map (fun a => a.requires_grad) = some true ∧
      m'.unet_lora.map (fun a => a.requires_grad) = some true ∧
      m'.optimizer.map List.length = some 2) := by
  refine ⟨?_, ?_, ?_⟩
  · cases h1 : config.text_encoder.train <;> cases h2 : config.unet.train <;>
      simp [create_parameters_for_optimizer, hte, hun, h1, h2, Option.bind]
  · cases h1 : config.text_encoder.train <;> cases h2 : config.unet.train <;>
      simp [lr_group_names, h1, h2]
  · intro m0 m' h1 h2 hs1 hs2 hsetup
    cases hte0 : m0.text_encoder_lora <;> cases hun0 : m0.unet_lora <;>
      cases h3 : config.rescale_noise_scheduler_to_zero_terminal_snr <;>
      simp [setup_model, install_lora_adapters, freeze_base_networks,
        apply_lora_gates, cast_lora_weight_dtype, create_parameters_for_optimizer,
        create_parameters, create_optimizer, create_ema, setup_optimizations,
        should_train_text_encoder, should_train_unet,
        stop_text_encoder_training_elapsed, stop_unet_training_elapsed,
        stop_training_elapsed, hte0, hun0, h1, h2, h3, hs1, hs2,
        Option.bind] at hsetup <;>
      subst hsetup <;> simp

/-- Witness for C7: at the concrete sample model with both adapters
installed and the sample config, the groups are the te group then the unet
group, and from the fresh sample model setup_model stores a two-group
optimizer. -/
theorem param_group_order_witness :
    (create_parameters_for_optimizer sampleModelWithLora sampleConfig = some
      ((if sampleConfig.text_encoder.train
          then [create_param_groups sampleConfig sampleAdapterTE.parameters
            sampleConfig.text_encoder.learning_rate]
          else []) ++
        (if sampleConfig.unet.train
          then [create_param_groups sampleConfig sampleAdapterUN.parameters
            sampleConfig.unet.learning_rate]
          else []))) ∧
    sampleResult.optimizer.map List.length = some 2 := by
  have h := param_group_order sampleModelWithLora sampleConfig sampleAdapterTE
    sampleAdapterUN (by decide) (by decide)
  refine ⟨h.1, ?_⟩
  exact (h.2.2 sampleModel sampleResult (by decide) (by decide) (by decide) (by decide)
    (by decide)).2.2

end SDLoRA
